import Mathlib

/-!
Verification development for the deno-redis client core (src/redis.ts).

The connection lifecycle of the client (class RedisConnection, the exported
connect function, parsePortLike, and the reply-pairing loop of
pubsub_numsubs) is embedded shallowly: effectful steps (dialing, the
AUTH / SELECT / PING exchanges, closing the socket) are driven by explicit
outcome oracles and recorded in an event trace, and the mutable fields of
RedisConnection become a state record threaded through the functions.
-/

namespace DenoRedis

/-! ## JavaScript scalar model

The source manipulates JS numbers only through parseInt,
Number.isSafeInteger, ordering comparisons and truthiness tests, so a JS
number is modelled as either an exact integer or a non-integer
(NaN / infinity / non-integral double).  Doubles represent every integer
of magnitude at most 2 to the 53 exactly, and isSafeInteger rejects
everything beyond that bound before the value is ever used, so keeping
the integer exact is faithful on the reachable range. -/

inductive JsNum where
  | int (n : Int)
  | nonInt
deriving DecidableEq, Repr

/-- Number.isSafeInteger: an integral double of magnitude at most 2^53 - 1. -/
def isSafeInteger : JsNum → Bool
  | .int n => n.natAbs ≤ 2 ^ 53 - 1
  | .nonInt => false

def JsNum.toIntD : JsNum → Int
  | .int n => n
  | .nonInt => 0

/-- The whitespace characters stripped by parseInt (space, tab, LF, VT, FF, CR). -/
def isJsSpace (c : Char) : Bool :=
  c.toNat = 32 || c.toNat = 9 || c.toNat = 10 || c.toNat = 13 || c.toNat = 11 || c.toNat = 12

/-- Value of a hexadecimal digit character, if it is one. -/
def hexVal (c : Char) : Option Nat :=
  if 48 ≤ c.toNat ∧ c.toNat ≤ 57 then some (c.toNat - 48)
  else if 65 ≤ c.toNat ∧ c.toNat ≤ 70 then some (c.toNat - 55)
  else if 97 ≤ c.toNat ∧ c.toNat ≤ 102 then some (c.toNat - 87)
  else none

/-- Decimal digit character (0-9). -/
def isDigitChar (c : Char) : Bool :=
  48 ≤ c.toNat && c.toNat ≤ 57

/-- A digit character valid in the given radix. -/
def isRadixDigit (radix : Nat) (c : Char) : Bool :=
  match hexVal c with
  | some v => v < radix
  | none => false

/-- Positional value of a digit string in the given radix. -/
def natOfDigits (radix : Nat) (ds : List Char) : Nat :=
  ds.foldl (fun a c => a * radix + (hexVal c).getD 0) 0

/-- parseInt keeps the longest leading run of digits of the radix;
no leading digit at all gives NaN. -/
def parseDigits (radix : Nat) (cs : List Char) : JsNum :=
  let ds := cs.takeWhile (isRadixDigit radix)
  if ds.isEmpty then .nonInt else .int (Int.ofNat (natOfDigits radix ds))

def negJs : JsNum → JsNum
  | .int n => .int (-n)
  | .nonInt => .nonInt

/-- After the optional sign, parseInt with no radix argument autodetects a
0x / 0X prefix as hexadecimal and otherwise parses decimal. -/
def parseUnsigned (cs : List Char) : JsNum :=
  match cs with
  | c0 :: c1 :: rest =>
    if c0.toNat = 48 ∧ (c1.toNat = 120 ∨ c1.toNat = 88) then parseDigits 16 rest
    else parseDigits 10 cs
  | _ => parseDigits 10 cs

/-- JS parseInt(s) with no radix argument: strip leading whitespace, read an
optional single sign, then parse the longest digit run (hex after 0x / 0X). -/
def jsParseInt (s : String) : JsNum :=
  match s.toList.dropWhile isJsSpace with
  | [] => .nonInt
  | c :: rest =>
    if c.toNat = 43 then parseUnsigned rest
    else if c.toNat = 45 then negJs (parseUnsigned rest)
    else parseUnsigned (c :: rest)

/-- The shapes a port value can arrive in at runtime: a string, a number,
undefined (the option was omitted), or a value of any other runtime type
(recorded with its typeof string, as the source interpolates it). -/
inductive PortLike where
  | str (s : String)
  | num (v : JsNum)
  | undef
  | other (typeName : String)
deriving DecidableEq, Repr

/-- parsePortLike (redis.ts 2281-2291): a string is parseInt-ed, a number is
returned as is, undefined defaults to 6379, anything else throws. -/
def parsePortLike : PortLike → Except String JsNum
  | .str s => .ok (jsParseInt s)
  | .num v => .ok v
  | .undef => .ok (.int 6379)
  | .other typeName => .error ("port is invalid: typeof=" ++ typeName)

/-! ## Connect options and connection state -/

/-- The option bag handed to RedisConnection (redis.ts 2108-2116).
String fields that the source tests for truthiness keep a JS-faithful
truthiness test below (the empty string is falsy); db and maxRetryCount are
numbers, with 0 falsy. -/
structure RedisConnectionOptions where
  tls : Bool := false
  db : Option Int := none
  password : Option String := none
  name : Option String := none
  maxRetryCount : Option Int := none
deriving DecidableEq, Repr

/-- JS truthiness of a possibly-undefined string: undefined and "" are falsy. -/
def strTruthy : Option String → Bool
  | some s => !(s = "")
  | none => false

/-- JS truthiness of a possibly-undefined number: undefined and 0 are falsy. -/
def numTruthy : Option Int → Bool
  | some n => !(n = 0)
  | none => false

/-- The mutable fields of class RedisConnection (redis.ts 2118-2143), plus
the open / closed state of the underlying socket (the closer) and the
retryOnDisconnect flag the executor was created with (redis.ts 2169).
Defaults mirror the field initializers of the class. -/
structure ConnState where
  name : Option String := none
  _isConnected : Bool := false
  _isClosed : Bool := false
  maxRetryCount : Int := 0
  retryCount : Int := 0
  socketOpen : Bool := false
  executorRetryOnDisconnect : Option Bool := none
deriving DecidableEq, Repr

/-- The field state of a freshly constructed RedisConnection. -/
def RedisConnection.new : ConnState := {}

inductive JsError where
  | badResource
  | genericError (msg : String)
deriving DecidableEq, Repr

/-- Deno.Conn.close(): closing an open socket succeeds; closing an already
closed one throws Deno.errors.BadResource. -/
def closerClose (socketOpen : Bool) : Bool × Option JsError :=
  if socketOpen then (false, none) else (false, some .badResource)

/-- RedisConnection.close (redis.ts 2216-2224) with the outcome of the
underlying closer.close() left as a parameter: both flags are assigned
before the closer is invoked, and a BadResource error is swallowed while
any other error propagates. -/
def closeWith (st : ConnState) (closerErr : Option JsError) : ConnState × Option JsError :=
  let st1 := { st with _isClosed := true, _isConnected := false, socketOpen := false }
  match closerErr with
  | some .badResource => (st1, none)
  | some e => (st1, some e)
  | none => (st1, none)

/-- RedisConnection.close with the actual Deno closer semantics. -/
def RedisConnection.close (st : ConnState) : ConnState × Option JsError :=
  closeWith st (closerClose st.socketOpen).2

/-- The state transformation of one close() call. -/
def closeRun (st : ConnState) : ConnState :=
  (RedisConnection.close st).1

/-! ## The connect sequence -/

/-- Observable steps of the lifecycle code, in program order. -/
inductive Event where
  | dialTcp (hostname : String) (port : Int)
  | dialTls (hostname : String) (port : Int)
  | makeExecutor (retryOnDisconnect : Bool)
  | markConnected
  | authExchange
  | selectExchange (db : Int)
  | closeSocket
  | pingExchange
  | waitMillis (ms : Nat)
  | resetRetryCount
  | incrRetryCount
deriving DecidableEq, Repr

/-- Outcomes of the effectful steps inside one run of the connect thunk. -/
structure ConnectEnv where
  dialOk : Bool
  authOk : Bool
  selectOk : Bool
deriving DecidableEq, Repr

/-- The maxRetryCount field after the conditional assignment of
redis.ts 2164, which fires only when options.maxRetryCount is truthy. -/
def effMaxRetry (st : ConnState) (options : RedisConnectionOptions) : Int :=
  if numTruthy options.maxRetryCount then options.maxRetryCount.getD 0 else st.maxRetryCount

/-- The dial step of the thunk: TLS when options.tls is set, else TCP. -/
def dialEvent (hostname : String) (options : RedisConnectionOptions) (port : Int) : Event :=
  if options.tls then .dialTls hostname port else .dialTcp hostname port

/-- Whether the executor made at redis.ts 2169 retries on disconnect:
the maxRetryCount in force after the conditional assignment is positive. -/
def connectRetryFlag (st : ConnState) (options : RedisConnectionOptions) : Bool :=
  decide ((0 : Int) < effMaxRetry st options)

/-- The field state right after the dial succeeds and before the AUTH and
SELECT exchanges run (redis.ts 2163-2172): name and maxRetryCount recorded
when truthy, the executor created, _isClosed cleared and _isConnected set. -/
def connectedState (st : ConnState) (options : RedisConnectionOptions) : ConnState :=
  let st1 := { st with socketOpen := true }
  let st2 := if strTruthy options.name then { st1 with name := options.name } else st1
  -- the name and socket updates leave maxRetryCount untouched, so the
  -- assignment of redis.ts 2164 reads the maxRetryCount of st
  { st2 with maxRetryCount := effMaxRetry st options,
             executorRetryOnDisconnect := some (connectRetryFlag st options),
             _isClosed := false, _isConnected := true }

/-- RedisConnection.thunkifyConnect (redis.ts 2146-2186).  In program order:
parse and validate the port; dial (TLS or TCP); record name and
maxRetryCount when truthy; create the executor with retryOnDisconnect set
iff maxRetryCount is positive; clear _isClosed and set _isConnected; then
AUTH when a password was given and SELECT when db is truthy, closing the
socket and rethrowing if either exchange fails.  Returns the event trace,
the final field state, and the surfaced error if any. -/
def thunkifyConnect (hostname : String) (port : PortLike)
    (options : RedisConnectionOptions) (env : ConnectEnv) (st : ConnState) :
    List Event × ConnState × Option JsError :=
  match parsePortLike port with
  | .error msg => ([], st, some (.genericError msg))
  | .ok p =>
    if isSafeInteger p = false then
      ([], st, some (.genericError "deno-redis: opts.port is invalid"))
    else
      let dialEv := dialEvent hostname options p.toIntD
      if env.dialOk = false then
        ([dialEv], st, some (.genericError "dial failed"))
      else
        let retryFlag := connectRetryFlag st options
        let st4 := connectedState st options
        let hd := [dialEv, Event.makeExecutor retryFlag, Event.markConnected]
        if options.password.isSome then
          if env.authOk then
            if numTruthy options.db then
              if env.selectOk then
                (hd ++ [Event.authExchange, Event.selectExchange (options.db.getD 0)], st4, none)
              else
                (hd ++ [Event.authExchange, Event.selectExchange (options.db.getD 0),
                        Event.closeSocket],
                 (RedisConnection.close st4).1, some (.genericError "SELECT failed"))
            else
              (hd ++ [Event.authExchange], st4, none)
          else
            (hd ++ [Event.authExchange, Event.closeSocket],
             (RedisConnection.close st4).1, some (.genericError "AUTH failed"))
        else
          if numTruthy options.db then
            if env.selectOk then
              (hd ++ [Event.selectExchange (options.db.getD 0)], st4, none)
            else
              (hd ++ [Event.selectExchange (options.db.getD 0), Event.closeSocket],
               (RedisConnection.close st4).1, some (.genericError "SELECT failed"))
          else
            (hd, st4, none)

/-! ## reconnect (redis.ts 2233-2278)

reconnect first probes the current connection with PING; on success it just
re-marks _isConnected.  On failure it clears _isConnected and starts a
setInterval(1200) loop.  Each tick first checks the ceiling — when
retryCount exceeds maxRetryCount it closes, clears the interval and
rejects, and, the source having no return after the reject, still falls
through into the body —, then the body closes, re-runs connect and sends a
PING; on success it marks connected, assigns retryCount = 0, clears the
interval and resolves; the finally clause increments retryCount on every
path.  The promise keeps the first settlement (a resolve after a reject is
a no-op). -/

/-- Outcomes of the effectful steps of one interval tick: the connect()
re-run inside it and the PING that follows. -/
structure TickEnv where
  connectEnv : ConnectEnv
  pingOk : Bool
deriving DecidableEq, Repr

/-- The hardcoded setInterval period of the reconnect loop (redis.ts 2273). -/
def reconnectIntervalMillis : Nat := 1200

/-- The ceiling guard at the head of each tick: when retryCount exceeds
maxRetryCount it closes and rejects; the source then falls through into
the body either way. -/
def tickGuard (st : ConnState) : List Event × ConnState :=
  if decide (st.maxRetryCount < st.retryCount) then
    ([Event.closeSocket], (RedisConnection.close st).1)
  else ([], st)

/-- One tick of the reconnect interval callback.  Returns the events of the
tick, the state after it, and the settlement it produced: some false for a
reject (the ceiling guard fired), some true for a resolve (the body
succeeded with the guard not having fired), none when the tick neither
settled nor cleared the interval. -/
def doTick (hostname : String) (port : PortLike) (opts : RedisConnectionOptions)
    (e : TickEnv) (st : ConnState) : List Event × ConnState × Option Bool :=
  let fired := decide (st.maxRetryCount < st.retryCount)
  let gd := tickGuard st
  let stC := (RedisConnection.close gd.2).1
  let body := thunkifyConnect hostname port opts e.connectEnv stC
  match body.2.2 with
  | some _ =>
      (gd.1 ++ [Event.closeSocket] ++ body.1 ++ [Event.incrRetryCount],
       { body.2.1 with retryCount := body.2.1.retryCount + 1 },
       if fired then some false else none)
  | none =>
      if e.pingOk then
        (gd.1 ++ [Event.closeSocket] ++ body.1 ++
           [Event.pingExchange, Event.resetRetryCount, Event.incrRetryCount],
         { body.2.1 with _isConnected := true, retryCount := 0 + 1 },
         some (if fired then false else true))
      else
        (gd.1 ++ [Event.closeSocket] ++ body.1 ++ [Event.pingExchange, Event.incrRetryCount],
         { body.2.1 with retryCount := body.2.1.retryCount + 1 },
         if fired then some false else none)

inductive LoopOutcome where
  | resolved
  | rejected
  | fuelOut
deriving DecidableEq, Repr

/-- The reconnect interval loop: run ticks until one settles the promise.
The interval index k selects the outcome oracle for each tick; the fuel
bounds the recursion and is irrelevant whenever it exceeds the number of
ticks the ceiling permits (see reconnectLoop_settles). -/
def reconnectLoop (hostname : String) (port : PortLike) (opts : RedisConnectionOptions)
    (env : Nat → TickEnv) : Nat → Nat → ConnState → List Event × ConnState × LoopOutcome
  | 0, _, st => ([], st, .fuelOut)
  | fuel + 1, k, st =>
    let t := doTick hostname port opts (env k) st
    match t.2.2 with
    | some true => (Event.waitMillis reconnectIntervalMillis :: t.1, t.2.1, .resolved)
    | some false => (Event.waitMillis reconnectIntervalMillis :: t.1, t.2.1, .rejected)
    | none =>
      let r := reconnectLoop hostname port opts env fuel (k + 1) t.2.1
      (Event.waitMillis reconnectIntervalMillis :: (t.1 ++ r.1), r.2.1, r.2.2)

/-- Outcomes of the effectful steps of one reconnect call: the initial PING
probe and the per-tick outcomes of the retry loop. -/
structure ReconnectEnv where
  initialPingOk : Bool
  ticks : Nat → TickEnv

inductive ReconnectResult where
  | ok
  | err (msg : String)
  | fuelOut
deriving DecidableEq, Repr

/-- RedisConnection.reconnect (redis.ts 2233-2278).  The peek(1) guard of
the source compares a Promise object, which is always truthy, so the
"Client is closed." throw is unreachable and is not modelled.  -/
def reconnect (hostname : String) (port : PortLike) (opts : RedisConnectionOptions)
    (env : ReconnectEnv) (fuel : Nat) (st : ConnState) :
    List Event × ConnState × ReconnectResult :=
  if env.initialPingOk then
    ([Event.pingExchange], { st with _isConnected := true }, .ok)
  else
    let st1 := { st with _isConnected := false }
    match reconnectLoop hostname port opts env.ticks fuel 0 st1 with
    | (evs, st2, .resolved) => (Event.pingExchange :: evs, st2, .ok)
    | (evs, st2, .rejected) => (Event.pingExchange :: evs, st2, .err "Could not reconnect")
    | (evs, st2, .fuelOut) => (Event.pingExchange :: evs, st2, .fuelOut)

/-- Whether one run of the connect thunk succeeds, given its outcomes. -/
def connectSucceeds (opts : RedisConnectionOptions) (e : ConnectEnv) : Bool :=
  e.dialOk && (!opts.password.isSome || e.authOk) && (!numTruthy opts.db || e.selectOk)

/-- The retry loop as the specification words it: a fixed-interval loop
that closes and re-runs connect, terminating when a reconnect succeeds or
when the retry count exceeds the maximum, in which case it fails.  Used to
state that the outcome of the code loop coincides with this contract. -/
def specRetryLoop (opts : RedisConnectionOptions) (env : Nat → TickEnv)
    (maxR : Int) : Nat → Nat → Int → LoopOutcome
  | 0, _, _ => .fuelOut
  | fuel + 1, k, r =>
    if maxR < r then .rejected
    else if connectSucceeds opts (env k).connectEnv && (env k).pingOk then .resolved
    else specRetryLoop opts env maxR fuel (k + 1) (r + 1)

/-- The options bag pins maxRetryCount to c: whenever the conditional
assignment inside the connect thunk fires, it writes back the value c.
Holds by construction for the options a connection was created with. -/
def maxStable (opts : RedisConnectionOptions) (c : Int) : Prop :=
  ∀ m, opts.maxRetryCount = some m → m ≠ 0 → m = c

/-! ## quit (redis.ts 997-1002) -/

/-- RedisImpl.quit: execStatusReply("QUIT") with a .finally that closes the
connection.  Per Promise.finally the callback runs once the exchange has
settled and the settlement passes through unchanged (close never throws,
see close_never_raises); the outcome of the QUIT exchange itself is the
oracle argument. -/
def quit (st : ConnState) (execOutcome : Except JsError String) :
    ConnState × Except JsError String :=
  ((RedisConnection.close st).1, execOutcome)

/-! ## pubsub_numsubs (redis.ts 979-991) -/

/-- The reply-pairing loop of pubsub_numsubs: i advances by 2 over the flat
reply array and [arr[i], arr[i+1]] is pushed each time.  The second
component is none when arr[i+1] is out of range (JS undefined, on an
odd-length reply). -/
def pubsub_numsubs {α : Type} : List α → List (Option α × Option α)
  | [] => []
  | [a] => [(some a, none)]
  | a :: b :: rest => (some a, some b) :: pubsub_numsubs rest

/-! ## The request multiplexer

Modelled from the spec: muxExecutor and sendCommand live in io.ts, which is
not part of the sources here (redis.ts only imports them).  Section 4.3 of
the specification describes the scheduling: a submit call enqueues the
command, and a single dispatch loop that owns the transport pops the head
of the FIFO queue, writes the command, reads exactly one reply, and fulfils
that submission with it, then repeats. -/

/-- A command is its token list. -/
def Command := List String

instance : DecidableEq Command := inferInstanceAs (DecidableEq (List String))

/-- Transport-level steps of the dispatch loop: writing the command of
submission k, and decoding the one reply that fulfils submission k. -/
inductive MuxEvent where
  | writeCmd (c : Command)
  | readReply (k : Nat)
deriving DecidableEq

/-- Modelled from the spec: the dispatch loop of the multiplexer.  Starting
from submission index k it processes the FIFO queue in order; each
iteration writes one command, reads one reply from the server oracle, and
hands that reply to the submitting caller.  Returns the transport event
trace and the (command, reply) pairs the callers receive, in FIFO order. -/
def dispatchLoop {α : Type} (server : Nat → α) :
    Nat → List Command → List MuxEvent × List (Command × α)
  | _, [] => ([], [])
  | k, c :: rest =>
    let r := dispatchLoop server (k + 1) rest
    (.writeCmd c :: .readReply k :: r.1, (c, server k) :: r.2)

/-! ## The ordering predicate of claim C1

Claim C1 lists the steps of connect as dial, AUTH, SELECT, and marking
connected, in that order: every markConnected event would have to come
after every authExchange event. -/

/-- Marking connected happens after the AUTH exchange in the trace. -/
def markAfterAuth (evs : List Event) : Prop :=
  ∀ i j, evs.get? i = some .markConnected → evs.get? j = some .authExchange → j < i

/-! ## Helper lemmas -/

/-- One close() call maps any state to the state with both flags down and
the socket closed, whatever the socket state was. -/
theorem closeRun_eq (st : ConnState) :
    closeRun st = { st with _isClosed := true, _isConnected := false, socketOpen := false } := by
  unfold closeRun RedisConnection.close closeWith closerClose
  by_cases h : st.socketOpen <;> simp [h]

/-- close() never surfaces an error from the Deno closer. -/
theorem close_snd_eq_none (st : ConnState) : (RedisConnection.close st).2 = none := by
  unfold RedisConnection.close closeWith closerClose
  by_cases h : st.socketOpen <;> simp [h]

theorem closeRun_idem (st : ConnState) : closeRun (closeRun st) = closeRun st := by
  simp [closeRun_eq]

/-! ## Claim theorems: close, quit, reply pairing -/

/-- Claim C4: close() is idempotent and never raises.  For every N at
least 1, N calls of close() leave the client in the same state as one call,
and the already-closed-resource error the Deno closer throws on the second
and later calls is suppressed, so no call of close() surfaces an error. -/
theorem close_idempotent_never_raises (st : ConnState) (n : Nat) (h : 1 ≤ n) :
    closeRun^[n] st = closeRun st ∧ ∀ s : ConnState, (RedisConnection.close s).2 = none := by
  refine ⟨?_, close_snd_eq_none⟩
  obtain ⟨m, rfl⟩ : ∃ m, n = m + 1 := ⟨n - 1, by omega⟩
  rw [Function.iterate_succ_apply]
  exact Function.iterate_fixed (closeRun_idem st) m

/-- Witness for C4 at a concrete state and N = 3. -/
theorem close_idempotent_never_raises_witness :
    1 ≤ 3 ∧
      (closeRun^[3] { _isConnected := true, socketOpen := true } =
          closeRun { _isConnected := true, socketOpen := true } ∧
        ∀ s : ConnState, (RedisConnection.close s).2 = none) :=
  ⟨by decide, close_idempotent_never_raises { _isConnected := true, socketOpen := true } 3 (by decide)⟩

/-- Claim C9: whenever close() finishes, normally or with an error
propagated from the underlying closer, the client observes isClosed = true
and isConnected = false, since both flags are assigned before the closer is
invoked; and a non-BadResource closer error does propagate, so the error
case is reachable. -/
theorem close_flags_always_set :
    (∀ (st : ConnState) (closerErr : Option JsError),
        (closeWith st closerErr).1._isClosed = true ∧
          (closeWith st closerErr).1._isConnected = false) ∧
      ∀ (st : ConnState) (msg : String),
        (closeWith st (some (.genericError msg))).2 = some (.genericError msg) := by
  constructor
  · intro st closerErr
    unfold closeWith
    rcases closerErr with _ | e
    · simp
    · cases e <;> simp
  · intro st msg
    simp [closeWith]

/-- Claim C10: quit() always closes the underlying connection once the QUIT
exchange has settled, whether the exchange succeeded or failed, and the
settlement of the QUIT exchange passes through unchanged. -/
theorem quit_always_closes (st : ConnState) (execOutcome : Except JsError String) :
    (quit st execOutcome).1._isClosed = true ∧
      (quit st execOutcome).1._isConnected = false ∧
      (quit st execOutcome).1.socketOpen = false ∧
      (quit st execOutcome).2 = execOutcome := by
  simp [quit, show (RedisConnection.close st).1 = closeRun st from rfl, closeRun_eq]

/-- Claim C8: on a flat reply array of even length 2k the pairing loop of
pubsub_numsubs returns exactly k pairs, in order, the i-th being the
elements at indices 2i and 2i+1. -/
theorem pubsub_numsubs_pairs_exact {α : Type} (arr : List α) (k : Nat)
    (h : arr.length = 2 * k) :
    (pubsub_numsubs arr).length = k ∧
      ∀ i, i < k → (pubsub_numsubs arr).get? i = some (arr.get? (2 * i), arr.get? (2 * i + 1)) := by
  induction k generalizing arr with
  | zero =>
    have : arr = [] := List.length_eq_zero.mp (by omega)
    subst this
    exact ⟨rfl, fun i hi => absurd hi (by omega)⟩
  | succ k ih =>
    match arr with
    | [] => simp at h
    | [a] => simp at h; omega
    | a :: b :: rest =>
      have hrest : rest.length = 2 * k := by simp at h; omega
      obtain ⟨hlen, hidx⟩ := ih rest hrest
      refine ⟨by simpa [pubsub_numsubs] using hlen, ?_⟩
      intro i hi
      match i with
      | 0 => rfl
      | i + 1 =>
        have h2 : 2 * (i + 1) = 2 * i + 1 + 1 := by omega
        have h3 : 2 * (i + 1) + 1 = 2 * i + 1 + 1 + 1 := by omega
        simp only [pubsub_numsubs, List.get?_cons_succ, h2, h3]
        exact hidx i (by omega)

/-- Witness for C8 at the concrete even-length reply [a, 1, b, 2]. -/
theorem pubsub_numsubs_pairs_exact_witness :
    (["a", "1", "b", "2"] : List String).length = 2 * 2 ∧
      ((pubsub_numsubs ["a", "1", "b", "2"]).length = 2 ∧
        ∀ i, i < 2 →
          (pubsub_numsubs ["a", "1", "b", "2"]).get? i =
            some ((["a", "1", "b", "2"] : List String).get? (2 * i),
              (["a", "1", "b", "2"] : List String).get? (2 * i + 1))) :=
  ⟨by decide, pubsub_numsubs_pairs_exact ["a", "1", "b", "2"] 2 (by decide)⟩

/-! ## Claim theorem: FIFO pairing of the multiplexer -/

/-- The submission index a transport event reads a reply for, if any. -/
def replyIdx : MuxEvent → Option Nat
  | .readReply k => some k
  | .writeCmd _ => none

theorem dispatchLoop_eq {α : Type} (server : Nat → α) (k : Nat) (q : List Command) :
    dispatchLoop server k q =
      ((q.enumFrom k).flatMap fun p => [MuxEvent.writeCmd p.2, MuxEvent.readReply p.1],
        (q.enumFrom k).map fun p => (p.2, server p.1)) := by
  induction q generalizing k with
  | nil => rfl
  | cons c rest ih => simp [dispatchLoop, List.enumFrom, ih (k + 1)]

theorem flatMap_writeRead_replyIdx (l : List (Nat × Command)) :
    (l.flatMap fun p => [MuxEvent.writeCmd p.2, MuxEvent.readReply p.1]).filterMap replyIdx
      = l.map Prod.fst := by
  induction l with
  | nil => rfl
  | cons p rest ih => simp [replyIdx, ih]

theorem enumFrom_fsts {α : Type} (n : Nat) (l : List α) :
    (l.enumFrom n).map Prod.fst = List.range' n l.length := by
  induction l generalizing n with
  | nil => rfl
  | cons a rest ih => simp [List.enumFrom, List.range', ih (n + 1)]

/-- Claim C7: the dispatch loop of the multiplexer serves submissions in
FIFO order with at most one exchange in flight: the transport trace is
exactly write 0, read 0, write 1, read 1, ..., so the replies are decoded
in submission order (the sequence of read indices is 0, 1, ..., n-1), and
the i-th caller receives exactly the pair of its own command with the i-th
server reply. -/
theorem mux_fifo_pairing {α : Type} (server : Nat → α) (q : List Command) :
    (dispatchLoop server 0 q).2 = q.enum.map (fun p => (p.2, server p.1)) ∧
      ((dispatchLoop server 0 q).1.filterMap replyIdx = List.range q.length ∧
        (dispatchLoop server 0 q).1
          = q.enum.flatMap fun p => [MuxEvent.writeCmd p.2, MuxEvent.readReply p.1]) := by
  have h := dispatchLoop_eq server 0 q
  rw [List.enum]
  refine ⟨by rw [h], ?_, by rw [h]⟩
  rw [h, flatMap_writeRead_replyIdx, enumFrom_fsts, List.range_eq_range']

/-! ## Claim theorem: port parsing -/

theorem isDigitChar_bounds {c : Char} (h : isDigitChar c = true) :
    48 ≤ c.toNat ∧ c.toNat ≤ 57 := by
  simpa [isDigitChar] using h

theorem digit_not_space {c : Char} (h : isDigitChar c = true) : isJsSpace c = false := by
  obtain ⟨h1, h2⟩ := isDigitChar_bounds h
  simp [isJsSpace]
  omega

theorem digit_isRadixDigit {c : Char} (h : isDigitChar c = true) :
    isRadixDigit 10 c = true := by
  obtain ⟨h1, h2⟩ := isDigitChar_bounds h
  simp [isRadixDigit, hexVal, h1, h2]
  omega

/-- On a nonempty all-decimal-digit string, parseInt returns its decimal
value. -/
theorem jsParseInt_digits (s : String) (hne : s.toList ≠ [])
    (hd : ∀ c ∈ s.toList, isDigitChar c = true) :
    jsParseInt s = .int (Int.ofNat (natOfDigits 10 s.toList)) := by
  unfold jsParseInt
  cases hl : s.toList with
  | nil => exact absurd hl hne
  | cons c cs =>
    have hc : isDigitChar c = true := hd c (hl ▸ List.mem_cons_self c cs)
    obtain ⟨hc1, hc2⟩ := isDigitChar_bounds hc
    rw [List.dropWhile_cons, digit_not_space hc]
    simp only [Bool.false_eq_true, if_false]
    rw [if_neg (by omega), if_neg (by omega)]
    have hall : ∀ x ∈ c :: cs, isRadixDigit 10 x = true := by
      intro x hx
      exact digit_isRadixDigit (hd x (hl ▸ hx))
    have hparse : parseDigits 10 (c :: cs) = .int (Int.ofNat (natOfDigits 10 (c :: cs))) := by
      unfold parseDigits
      rw [List.takeWhile_eq_self_iff.mpr hall]
      simp
    cases cs with
    | nil => simpa [parseUnsigned] using hparse
    | cons c1 rest =>
      have hc1d : isDigitChar c1 = true := hd c1 (hl ▸ List.mem_cons_of_mem c (List.mem_cons_self c1 rest))
      obtain ⟨hb1, hb2⟩ := isDigitChar_bounds hc1d
      have hred : parseUnsigned (c :: c1 :: rest) =
          if c.toNat = 48 ∧ (c1.toNat = 120 ∨ c1.toNat = 88) then parseDigits 16 rest
          else parseDigits 10 (c :: c1 :: rest) := rfl
      rw [hred, if_neg (by omega)]
      exact hparse

/-- Claim C5: a port given as a nonempty decimal-digit string is parsed to
its integer value; a missing (undefined) port defaults to 6379; a
non-numeric string (parseInt gives NaN) and a value of any other runtime
type are rejected at connect with an input error, with an empty event
trace, hence before any dial and before any command is sent. -/
theorem port_parsing :
    (∀ s : String, s.toList ≠ [] → (∀ c ∈ s.toList, isDigitChar c = true) →
        parsePortLike (.str s) = .ok (.int (Int.ofNat (natOfDigits 10 s.toList)))) ∧
      parsePortLike .undef = .ok (.int 6379) ∧
      (∀ (s hostname : String) (opts : RedisConnectionOptions) (env : ConnectEnv)
          (st : ConnState), jsParseInt s = .nonInt →
          thunkifyConnect hostname (.str s) opts env st
            = ([], st, some (.genericError "deno-redis: opts.port is invalid"))) ∧
      ∀ (t hostname : String) (opts : RedisConnectionOptions) (env : ConnectEnv)
        (st : ConnState),
        thunkifyConnect hostname (.other t) opts env st
          = ([], st, some (.genericError ("port is invalid: typeof=" ++ t))) := by
  refine ⟨?_, rfl, ?_, ?_⟩
  · intro s hne hd
    simp [parsePortLike, jsParseInt_digits s hne hd]
  · intro s hostname opts env st h
    simp [thunkifyConnect, parsePortLike, h, isSafeInteger]
  · intro t hostname opts env st
    simp [thunkifyConnect, parsePortLike]

/-- Witness for C5 at the concrete ports "6380", undefined, "abc" and a
boolean-typed value. -/
theorem port_parsing_witness :
    ("6380".toList ≠ [] ∧ (∀ c ∈ "6380".toList, isDigitChar c = true) ∧
        jsParseInt "abc" = .nonInt) ∧
      parsePortLike (.str "6380") = .ok (.int (Int.ofNat (natOfDigits 10 "6380".toList))) ∧
      parsePortLike .undef = .ok (.int 6379) ∧
      thunkifyConnect "h" (.str "abc") {} ⟨true, true, true⟩ {}
          = ([], {}, some (.genericError "deno-redis: opts.port is invalid")) ∧
      thunkifyConnect "h" (.other "boolean") {} ⟨true, true, true⟩ {}
          = ([], {}, some (.genericError ("port is invalid: typeof=" ++ "boolean"))) :=
  ⟨⟨by decide, by decide, by decide⟩,
    port_parsing.1 "6380" (by decide) (by decide),
    port_parsing.2.1,
    port_parsing.2.2.1 "abc" "h" {} ⟨true, true, true⟩ {} (by decide),
    port_parsing.2.2.2 "boolean" "h" {} ⟨true, true, true⟩ {}⟩

/-! ## Claim theorems: the connect sequence -/

/-- Claim C1 counterexample: with hostname "h", default port, password set
and every exchange succeeding, the connect thunk marks the client
connected (trace index 2, from redis.ts 2172) before the AUTH exchange
(trace index 3), so the order claimed by C1 — dial, AUTH, SELECT, then
mark connected — is false on the code. -/
theorem connect_order_cex :
    ¬ markAfterAuth (thunkifyConnect "h" PortLike.undef { password := some "pw" }
        ⟨true, true, true⟩ {}).1 := by
  intro h
  have := h 2 3 (by decide) (by decide)
  omega

/-- Claim C1 (amended): the connect thunk performs, in order, the dial
(TLS when tls is set) to (hostname, parsed port), then marks the client
connected, then an AUTH exchange when password is set, then a SELECT db
exchange when db is set and non-zero.  If the AUTH or the SELECT exchange
fails, the socket is closed — leaving the client marked closed and not
connected — and the failure is surfaced to the caller of connect. -/
theorem connect_sequence (hostname : String) (port : PortLike)
    (opts : RedisConnectionOptions) (env : ConnectEnv) (st : ConnState) (p : JsNum)
    (hp : parsePortLike port = .ok p) (hsafe : isSafeInteger p = true)
    (hdial : env.dialOk = true) :
    (connectedState st opts)._isConnected = true ∧
      (connectedState st opts)._isClosed = false ∧
      ((opts.password.isSome = true → env.authOk = true) →
        (numTruthy opts.db = true → env.selectOk = true) →
        thunkifyConnect hostname port opts env st =
          ([dialEvent hostname opts p.toIntD, .makeExecutor (connectRetryFlag st opts),
              .markConnected] ++
            (if opts.password.isSome then [Event.authExchange] else []) ++
            (if numTruthy opts.db then [Event.selectExchange (opts.db.getD 0)] else []),
            connectedState st opts, none)) ∧
      (opts.password.isSome = true → env.authOk = false →
        thunkifyConnect hostname port opts env st =
          ([dialEvent hostname opts p.toIntD, .makeExecutor (connectRetryFlag st opts),
              .markConnected, .authExchange, .closeSocket],
            closeRun (connectedState st opts), some (.genericError "AUTH failed")) ∧
          (closeRun (connectedState st opts))._isConnected = false ∧
          (closeRun (connectedState st opts))._isClosed = true) ∧
      ((opts.password.isSome = true → env.authOk = true) → numTruthy opts.db = true →
        env.selectOk = false →
        thunkifyConnect hostname port opts env st =
          ([dialEvent hostname opts p.toIntD, .makeExecutor (connectRetryFlag st opts),
              .markConnected] ++
            (if opts.password.isSome then [Event.authExchange] else []) ++
            [Event.selectExchange (opts.db.getD 0), Event.closeSocket],
            closeRun (connectedState st opts), some (.genericError "SELECT failed")) ∧
          (closeRun (connectedState st opts))._isConnected = false ∧
          (closeRun (connectedState st opts))._isClosed = true) := by
  refine ⟨rfl, rfl, ?_, ?_, ?_⟩
  · intro hauth hsel
    cases hpw : opts.password.isSome with
    | false =>
      cases hdb : numTruthy opts.db with
      | false => simp [thunkifyConnect, hp, hsafe, hdial, hpw, hdb]
      | true => simp [thunkifyConnect, hp, hsafe, hdial, hpw, hdb, hsel hdb]
    | true =>
      cases hdb : numTruthy opts.db with
      | false => simp [thunkifyConnect, hp, hsafe, hdial, hpw, hdb, hauth hpw]
      | true => simp [thunkifyConnect, hp, hsafe, hdial, hpw, hdb, hauth hpw, hsel hdb]
  · intro hpw hnauth
    refine ⟨?_, by simp [closeRun_eq], by simp [closeRun_eq]⟩
    simp [thunkifyConnect, hp, hsafe, hdial, hpw, hnauth, closeRun]
  · intro hauth hdb hnsel
    refine ⟨?_, by simp [closeRun_eq], by simp [closeRun_eq]⟩
    cases hpw : opts.password.isSome with
    | false => simp [thunkifyConnect, hp, hsafe, hdial, hpw, hdb, hnsel, closeRun]
    | true => simp [thunkifyConnect, hp, hsafe, hdial, hpw, hdb, hauth hpw, hnsel, closeRun]

/-- Witness for the amended C1 at hostname "h", default port, password and
db both set, every exchange succeeding. -/
theorem connect_sequence_witness :
    (parsePortLike PortLike.undef = .ok (.int 6379) ∧
        isSafeInteger (.int 6379) = true) ∧
      thunkifyConnect "h" PortLike.undef { password := some "pw", db := some 2 }
          ⟨true, true, true⟩ {} =
        ([dialEvent "h" { password := some "pw", db := some 2 } 6379,
            .makeExecutor (connectRetryFlag {} { password := some "pw", db := some 2 }),
            .markConnected, .authExchange, .selectExchange 2],
          connectedState {} { password := some "pw", db := some 2 }, none) := by
  have h := connect_sequence "h" PortLike.undef { password := some "pw", db := some 2 }
      ⟨true, true, true⟩ {} (.int 6379) rfl (by decide) rfl
  have h3 := h.2.2.1 (fun _ => rfl) (fun _ => rfl)
  exact ⟨⟨rfl, by decide⟩, by simpa using h3⟩

/-- Claim C6: maxRetryCount defaults to 0 on a fresh connection, and the
executor made by a successful dial has its retry-on-reconnect behaviour
enabled if and only if the configured maxRetryCount is greater than 0. -/
theorem maxRetryCount_gate (hostname : String) (port : PortLike)
    (opts : RedisConnectionOptions) (env : ConnectEnv) (p : JsNum)
    (hp : parsePortLike port = .ok p) (hsafe : isSafeInteger p = true)
    (hdial : env.dialOk = true) :
    RedisConnection.new.maxRetryCount = 0 ∧
      (thunkifyConnect hostname port opts env RedisConnection.new).1.get? 1
          = some (.makeExecutor (connectRetryFlag RedisConnection.new opts)) ∧
      (connectRetryFlag RedisConnection.new opts = true ↔
        ∃ m, opts.maxRetryCount = some m ∧ 0 < m) := by
  refine ⟨rfl, ?_, ?_⟩
  · cases hpw : opts.password.isSome <;> cases hdb : numTruthy opts.db <;>
      cases hauth : env.authOk <;> cases hsel : env.selectOk <;>
      simp [thunkifyConnect, hp, hsafe, hdial, hpw, hdb, hauth, hsel]
  · rcases hmr : opts.maxRetryCount with _ | m
    · simp [connectRetryFlag, effMaxRetry, numTruthy, hmr, RedisConnection.new]
    · by_cases hm : m = 0
      · subst hm
        simp [connectRetryFlag, effMaxRetry, numTruthy, hmr, RedisConnection.new]
      · simp [connectRetryFlag, effMaxRetry, numTruthy, hmr, hm, RedisConnection.new]

/-- Witness for C6 with configured maxRetryCount 2. -/
theorem maxRetryCount_gate_witness :
    (parsePortLike PortLike.undef = .ok (.int 6379) ∧
        isSafeInteger (.int 6379) = true) ∧
      (RedisConnection.new.maxRetryCount = 0 ∧
        (thunkifyConnect "h" PortLike.undef { maxRetryCount := some 2 }
            ⟨true, true, true⟩ RedisConnection.new).1.get? 1
          = some (.makeExecutor
              (connectRetryFlag RedisConnection.new { maxRetryCount := some 2 })) ∧
        (connectRetryFlag RedisConnection.new { maxRetryCount := some 2 } = true ↔
          ∃ m, ({ maxRetryCount := some 2 } : RedisConnectionOptions).maxRetryCount
              = some m ∧ 0 < m)) :=
  ⟨⟨rfl, by decide⟩,
    maxRetryCount_gate "h" PortLike.undef { maxRetryCount := some 2 } ⟨true, true, true⟩
      (.int 6379) rfl (by decide) rfl⟩

/-! ## Helper lemmas for the reconnect loop -/

theorem close_fst_retryCount (st : ConnState) :
    (RedisConnection.close st).1.retryCount = st.retryCount := by
  simp [show (RedisConnection.close st).1 = closeRun st from rfl, closeRun_eq]

theorem close_fst_maxRetryCount (st : ConnState) :
    (RedisConnection.close st).1.maxRetryCount = st.maxRetryCount := by
  simp [show (RedisConnection.close st).1 = closeRun st from rfl, closeRun_eq]

theorem connectedState_retryCount (st : ConnState) (o : RedisConnectionOptions) :
    (connectedState st o).retryCount = st.retryCount := by
  unfold connectedState
  by_cases h : strTruthy o.name <;> simp [h]

theorem connectedState_maxRetryCount (st : ConnState) (o : RedisConnectionOptions) :
    (connectedState st o).maxRetryCount = effMaxRetry st o := by
  unfold connectedState
  by_cases h : strTruthy o.name <;> simp [h]

theorem effMaxRetry_stable {o : RedisConnectionOptions} {c : Int}
    (hstable : maxStable o c) {st : ConnState} (h : st.maxRetryCount = c) :
    effMaxRetry st o = c := by
  unfold effMaxRetry numTruthy
  rcases hmr : o.maxRetryCount with _ | m
  · simpa using h
  · by_cases hm : m = 0
    · simpa [hm] using h
    · simpa [hm] using hstable m hmr hm

theorem thunkifyConnect_retryCount (hostname : String) (port : PortLike)
    (opts : RedisConnectionOptions) (env : ConnectEnv) (st : ConnState) :
    (thunkifyConnect hostname port opts env st).2.1.retryCount = st.retryCount := by
  unfold thunkifyConnect
  cases hpp : parsePortLike port with
  | error msg => simp
  | ok p =>
    by_cases hs : isSafeInteger p = false
    · simp [hs]
    · simp only [hs, if_false]
      by_cases hd : env.dialOk = false
      · simp [hd]
      · cases hpw : opts.password.isSome <;> cases hdb : numTruthy opts.db <;>
          cases hauth : env.authOk <;> cases hsel : env.selectOk <;>
          simp [hpw, hdb, hauth, hsel, hd, close_fst_retryCount, connectedState_retryCount]

theorem thunkifyConnect_maxRetryCount {opts : RedisConnectionOptions} {c : Int}
    (hostname : String) (port : PortLike) (env : ConnectEnv) {st : ConnState}
    (hstable : maxStable opts c) (hst : st.maxRetryCount = c) :
    (thunkifyConnect hostname port opts env st).2.1.maxRetryCount = c := by
  unfold thunkifyConnect
  cases hpp : parsePortLike port with
  | error msg => simpa using hst
  | ok p =>
    by_cases hs : isSafeInteger p = false
    · simpa [hs] using hst
    · simp only [hs, if_false]
      by_cases hd : env.dialOk = false
      · simpa [hd] using hst
      · have heff : effMaxRetry st opts = c := effMaxRetry_stable hstable hst
        cases hpw : opts.password.isSome <;> cases hdb : numTruthy opts.db <;>
          cases hauth : env.authOk <;> cases hsel : env.selectOk <;>
          simp [hpw, hdb, hauth, hsel, hd, close_fst_maxRetryCount,
            connectedState_maxRetryCount, heff]

theorem thunkifyConnect_err_iff {p : JsNum} (hostname : String) (port : PortLike)
    (opts : RedisConnectionOptions) (env : ConnectEnv) (st : ConnState)
    (hp : parsePortLike port = .ok p) (hsafe : isSafeInteger p = true) :
    ((thunkifyConnect hostname port opts env st).2.2 = none ↔
      connectSucceeds opts env = true) := by
  unfold thunkifyConnect connectSucceeds
  rw [hp]
  simp only [hsafe]
  cases hdial : env.dialOk <;> cases hpw : opts.password.isSome <;>
    cases hdb : numTruthy opts.db <;> cases hauth : env.authOk <;>
    cases hsel : env.selectOk <;> simp [hpw, hdb, hauth, hsel, hdial]

theorem thunkifyConnect_dial_mem {p : JsNum} (hostname : String) (port : PortLike)
    (opts : RedisConnectionOptions) (env : ConnectEnv) (st : ConnState)
    (hp : parsePortLike port = .ok p) (hsafe : isSafeInteger p = true) :
    dialEvent hostname opts p.toIntD ∈ (thunkifyConnect hostname port opts env st).1 := by
  unfold thunkifyConnect
  rw [hp]
  simp only [hsafe]
  cases hdial : env.dialOk <;> cases hpw : opts.password.isSome <;>
    cases hdb : numTruthy opts.db <;> cases hauth : env.authOk <;>
    cases hsel : env.selectOk <;> simp [hpw, hdb, hauth, hsel, hdial]

theorem thunkifyConnect_counts {p : JsNum} (hostname : String) (port : PortLike)
    (opts : RedisConnectionOptions) (env : ConnectEnv) (st : ConnState) (n : Nat)
    (hp : parsePortLike port = .ok p) (hsafe : isSafeInteger p = true) :
    (thunkifyConnect hostname port opts env st).1.count (dialEvent hostname opts p.toIntD) = 1 ∧
      (thunkifyConnect hostname port opts env st).1.count (Event.waitMillis n) = 0 := by
  unfold thunkifyConnect
  rw [hp]
  simp only [hsafe]
  cases ht : opts.tls <;> cases hdial : env.dialOk <;> cases hpw : opts.password.isSome <;>
    cases hdb : numTruthy opts.db <;> cases hauth : env.authOk <;>
    cases hsel : env.selectOk <;>
    simp [hpw, hdb, hauth, hsel, hdial, dialEvent, ht, List.count_cons, List.count_append]

theorem tickGuard_snd_retryCount (st : ConnState) :
    (tickGuard st).2.retryCount = st.retryCount := by
  unfold tickGuard
  split <;> simp [close_fst_retryCount]

theorem tickGuard_snd_maxRetryCount (st : ConnState) :
    (tickGuard st).2.maxRetryCount = st.maxRetryCount := by
  unfold tickGuard
  split <;> simp [close_fst_maxRetryCount]

/-- The settlement a tick produces, as a function of the ceiling test and
the outcome oracles of the tick. -/
theorem doTick_settled {p : JsNum} {c : Int}
    (hostname : String) (port : PortLike) (opts : RedisConnectionOptions)
    (e : TickEnv) {st : ConnState}
    (hp : parsePortLike port = .ok p) (hsafe : isSafeInteger p = true)
    (hmax : st.maxRetryCount = c) :
    (doTick hostname port opts e st).2.2 =
      if c < st.retryCount then some false
      else if connectSucceeds opts e.connectEnv && e.pingOk then some true
      else none := by
  cases hb : connectSucceeds opts e.connectEnv with
  | true =>
    have hnone : (thunkifyConnect hostname port opts e.connectEnv
        ((RedisConnection.close (tickGuard st).2).1)).2.2 = none :=
      (thunkifyConnect_err_iff hostname port opts e.connectEnv _ hp hsafe).mpr hb
    unfold doTick
    rw [hmax]
    simp only [hnone]
    by_cases h1 : c < st.retryCount <;> cases hping : e.pingOk <;> simp [h1, hping]
  | false =>
    obtain ⟨err, herr⟩ : ∃ err, (thunkifyConnect hostname port opts e.connectEnv
        ((RedisConnection.close (tickGuard st).2).1)).2.2 = some err := by
      rcases hx : (thunkifyConnect hostname port opts e.connectEnv
          ((RedisConnection.close (tickGuard st).2).1)).2.2 with _ | err
      · have := (thunkifyConnect_err_iff hostname port opts e.connectEnv _ hp hsafe).mp hx
        rw [this] at hb
        cases hb
      · exact ⟨err, rfl⟩
    unfold doTick
    rw [hmax]
    simp only [herr]
    by_cases h1 : c < st.retryCount <;> simp [h1]

/-- A tick leaves maxRetryCount pinned at the configured value. -/
theorem doTick_maxRetryCount {opts : RedisConnectionOptions} {c : Int}
    (hostname : String) (port : PortLike) (e : TickEnv) {st : ConnState}
    (hstable : maxStable opts c) (hmax : st.maxRetryCount = c) :
    (doTick hostname port opts e st).2.1.maxRetryCount = c := by
  have hc : ((RedisConnection.close (tickGuard st).2).1).maxRetryCount = c := by
    rw [close_fst_maxRetryCount, tickGuard_snd_maxRetryCount]
    exact hmax
  have hbody := thunkifyConnect_maxRetryCount hostname port e.connectEnv hstable hc
  unfold doTick
  rcases hx : (thunkifyConnect hostname port opts e.connectEnv
      ((RedisConnection.close (tickGuard st).2).1)).2.2 with _ | err <;>
    simp only [hx]
  · cases hping : e.pingOk <;> simp [hping, hbody]
  · simp [hbody]

/-- A tick that neither resolves nor rejects increments retryCount by one. -/
theorem doTick_retryCount_of_none (hostname : String) (port : PortLike)
    (opts : RedisConnectionOptions) (e : TickEnv) (st : ConnState)
    (h : (doTick hostname port opts e st).2.2 = none) :
    (doTick hostname port opts e st).2.1.retryCount = st.retryCount + 1 := by
  have hbody : (thunkifyConnect hostname port opts e.connectEnv
      ((RedisConnection.close (tickGuard st).2).1)).2.1.retryCount = st.retryCount := by
    rw [thunkifyConnect_retryCount, close_fst_retryCount, tickGuard_snd_retryCount]
  unfold doTick at h ⊢
  rcases hx : (thunkifyConnect hostname port opts e.connectEnv
      ((RedisConnection.close (tickGuard st).2).1)).2.2 with _ | err <;>
    simp only [hx] at h ⊢
  · cases hping : e.pingOk
    · simp [hping, hbody]
    · simp [hping] at h
  · simp [hbody]

/-- A resolving tick ends with retryCount 1 (the success path assigns 0 and
the finally clause then increments), a resetRetryCount event in its trace,
and the connection marked connected. -/
theorem doTick_resolved_state (hostname : String) (port : PortLike)
    (opts : RedisConnectionOptions) (e : TickEnv) (st : ConnState)
    (h : (doTick hostname port opts e st).2.2 = some true) :
    (doTick hostname port opts e st).2.1.retryCount = 1 ∧
      Event.resetRetryCount ∈ (doTick hostname port opts e st).1 ∧
      (doTick hostname port opts e st).2.1._isConnected = true := by
  unfold doTick at h ⊢
  rcases hx : (thunkifyConnect hostname port opts e.connectEnv
      ((RedisConnection.close (tickGuard st).2).1)).2.2 with _ | err <;>
    simp only [hx] at h ⊢
  · cases hping : e.pingOk
    · simp [hping] at h
    · refine ⟨by simp [hping], ?_, by simp [hping]⟩
      simp [hping]
  · simp at h

/-- A rejecting tick means the ceiling guard fired at its start. -/
theorem doTick_rejected_fired (hostname : String) (port : PortLike)
    (opts : RedisConnectionOptions) (e : TickEnv) (st : ConnState)
    (h : (doTick hostname port opts e st).2.2 = some false) :
    st.maxRetryCount < st.retryCount := by
  by_contra hnot
  have hdec : decide (st.maxRetryCount < st.retryCount) = false := by
    simpa using hnot
  unfold doTick at h
  rw [hdec] at h
  rcases hx : (thunkifyConnect hostname port opts e.connectEnv
      ((RedisConnection.close (tickGuard st).2).1)).2.2 with _ | err <;>
    simp only [hx] at h
  · cases hping : e.pingOk <;> simp [hping] at h
  · simp at h

/-- Every tick makes exactly one dial attempt, closes the socket at least
once, and contains no interval wait of its own. -/
theorem doTick_counts {p : JsNum} (hostname : String) (port : PortLike)
    (opts : RedisConnectionOptions) (e : TickEnv) (st : ConnState)
    (hp : parsePortLike port = .ok p) (hsafe : isSafeInteger p = true) :
    (doTick hostname port opts e st).1.count (dialEvent hostname opts p.toIntD) = 1 ∧
      (doTick hostname port opts e st).1.count
          (Event.waitMillis reconnectIntervalMillis) = 0 ∧
      Event.closeSocket ∈ (doTick hostname port opts e st).1 := by
  have hbody := thunkifyConnect_counts hostname port opts e.connectEnv
      ((RedisConnection.close (tickGuard st).2).1) reconnectIntervalMillis hp hsafe
  have hguard : (tickGuard st).1.count (dialEvent hostname opts p.toIntD) = 0 ∧
      (tickGuard st).1.count (Event.waitMillis reconnectIntervalMillis) = 0 := by
    unfold tickGuard
    split <;> cases ht : opts.tls <;> simp [dialEvent, ht]
  unfold doTick
  cases ht : opts.tls <;>
    simp only [dialEvent, ht, Bool.false_eq_true, if_false, if_true] at hbody hguard ⊢ <;>
    all_goals (
      rcases hx : (thunkifyConnect hostname port opts e.connectEnv
          ((RedisConnection.close (tickGuard st).2).1)).2.2 with _ | err
      · cases hping : e.pingOk <;>
          simp [hx, hping, List.count_append, List.count_cons, hbody.1, hbody.2,
            hguard.1, hguard.2]
      · simp [hx, List.count_append, List.count_cons, hbody.1, hbody.2,
          hguard.1, hguard.2])

/-- The outcome of the code loop coincides with the loop contract of the
specification, started from the maxRetryCount in force and the current
retryCount. -/
theorem reconnectLoop_outcome {p : JsNum} {opts : RedisConnectionOptions} {c : Int}
    (hostname : String) (port : PortLike) (env : Nat → TickEnv)
    (hp : parsePortLike port = .ok p) (hsafe : isSafeInteger p = true)
    (hstable : maxStable opts c) :
    ∀ (fuel k : Nat) (st : ConnState), st.maxRetryCount = c →
      (reconnectLoop hostname port opts env fuel k st).2.2
        = specRetryLoop opts env c fuel k st.retryCount := by
  intro fuel
  induction fuel with
  | zero => intro k st hmax; rfl
  | succ fuel ih =>
    intro k st hmax
    have hset := doTick_settled hostname port opts (env k) hp hsafe hmax
    simp only [reconnectLoop, specRetryLoop]
    rcases hx : (doTick hostname port opts (env k) st).2.2 with _ | b
    · rw [hx] at hset
      by_cases h1 : c < st.retryCount
      · rw [if_pos h1] at hset
        cases hset
      · rw [if_neg h1] at hset
        by_cases h2 : (connectSucceeds opts (env k).connectEnv && (env k).pingOk) = true
        · rw [if_pos h2] at hset
          cases hset
        · simp only [hx]
          rw [if_neg h1, if_neg h2]
          have hmax2 := doTick_maxRetryCount hostname port (env k) hstable hmax
          have hrc := doTick_retryCount_of_none hostname port opts (env k) st hx
          rw [← hrc]
          exact ih (k + 1) _ hmax2
    · rw [hx] at hset
      cases b
      · have h1 : c < st.retryCount := by
          by_contra h1
          rw [if_neg h1] at hset
          by_cases h2 : (connectSucceeds opts (env k).connectEnv && (env k).pingOk) = true
          · rw [if_pos h2] at hset
            cases hset
          · rw [if_neg h2] at hset
            cases hset
        simp only [hx]
        rw [if_pos h1]
      · have h1 : ¬ c < st.retryCount := by
          intro h1
          rw [if_pos h1] at hset
          cases hset
        have h2 : (connectSucceeds opts (env k).connectEnv && (env k).pingOk) = true := by
          by_contra h2
          rw [if_neg h1, if_neg h2] at hset
          cases hset
        simp only [hx]
        rw [if_neg h1, if_pos h2]

/-- With fuel beyond what the ceiling permits, the loop contract settles. -/
theorem specRetryLoop_settles (opts : RedisConnectionOptions) (env : Nat → TickEnv)
    (c : Int) :
    ∀ (fuel k : Nat) (r : Int), (c - r + 2).toNat + 1 ≤ fuel →
      specRetryLoop opts env c fuel k r ≠ .fuelOut := by
  intro fuel
  induction fuel with
  | zero => intro k r h; exact absurd h (by omega)
  | succ fuel ih =>
    intro k r h
    simp only [specRetryLoop]
    by_cases h1 : c < r
    · simp [h1]
    · rw [if_neg h1]
      by_cases h2 : (connectSucceeds opts (env k).connectEnv && (env k).pingOk) = true
      · simp [h2]
      · rw [if_neg h2]
        exact ih (k + 1) (r + 1) (by omega)

/-- A resolving run of the loop ends connected with retryCount 1 and a
resetRetryCount event in its trace. -/
theorem reconnectLoop_resolved_state (hostname : String) (port : PortLike)
    (opts : RedisConnectionOptions) (env : Nat → TickEnv) :
    ∀ (fuel k : Nat) (st : ConnState),
      (reconnectLoop hostname port opts env fuel k st).2.2 = .resolved →
      (reconnectLoop hostname port opts env fuel k st).2.1.retryCount = 1 ∧
        Event.resetRetryCount ∈ (reconnectLoop hostname port opts env fuel k st).1 ∧
        (reconnectLoop hostname port opts env fuel k st).2.1._isConnected = true := by
  intro fuel
  induction fuel with
  | zero => intro k st h; cases h
  | succ fuel ih =>
    intro k st h
    simp only [reconnectLoop] at h ⊢
    rcases hx : (doTick hostname port opts (env k) st).2.2 with _ | b
    · simp only [hx] at h ⊢
      obtain ⟨h1, h2, h3⟩ := ih (k + 1) _ h
      exact ⟨h1, by simp [h2], h3⟩
    · cases b
      · simp [hx] at h
      · simp only [hx] at h ⊢
        obtain ⟨h1, h2, h3⟩ := doTick_resolved_state hostname port opts (env k) st hx
        exact ⟨h1, by simp [h2], h3⟩

/-- Every iteration of the loop waits one interval, makes exactly one dial
attempt, and closes the socket at least once: in the whole loop trace the
dial attempts equal the interval waits in number and the closes are at
least as many. -/
theorem reconnectLoop_counts {p : JsNum} (hostname : String) (port : PortLike)
    (opts : RedisConnectionOptions) (env : Nat → TickEnv)
    (hp : parsePortLike port = .ok p) (hsafe : isSafeInteger p = true) :
    ∀ (fuel k : Nat) (st : ConnState),
      (reconnectLoop hostname port opts env fuel k st).1.count
          (dialEvent hostname opts p.toIntD)
        = (reconnectLoop hostname port opts env fuel k st).1.count
            (Event.waitMillis reconnectIntervalMillis) ∧
      (reconnectLoop hostname port opts env fuel k st).1.count
          (Event.waitMillis reconnectIntervalMillis)
        ≤ (reconnectLoop hostname port opts env fuel k st).1.count Event.closeSocket := by
  intro fuel
  induction fuel with
  | zero => intro k st; simp [reconnectLoop]
  | succ fuel ih =>
    intro k st
    obtain ⟨hd, hw, hcm⟩ := doTick_counts hostname port opts (env k) st hp hsafe
    have hcc : 1 ≤ (doTick hostname port opts (env k) st).1.count Event.closeSocket :=
      List.count_pos_iff.mpr hcm
    obtain ⟨ih1, ih2⟩ := ih (k + 1) ((doTick hostname port opts (env k) st).2.1)
    simp only [reconnectLoop]
    rcases hx : (doTick hostname port opts (env k) st).2.2 with _ | b
    · simp only [hx]
      cases ht : opts.tls <;>
        simp only [dialEvent, ht, Bool.false_eq_true, if_false, if_true] at hd ih1 ih2 ⊢ <;>
        simp [List.count_cons, List.count_append, hd, hw, ih1, ih2] <;>
        exact ⟨by omega, by omega⟩
    · cases b <;> simp only [hx] <;>
        cases ht : opts.tls <;>
        simp only [dialEvent, ht, Bool.false_eq_true, if_false, if_true] at hd ⊢ <;>
        simp [List.count_cons, List.count_append, hd, hw] <;>
        exact hcm

/-- With any fuel at all, the loop trace begins with the interval wait. -/
theorem reconnectLoop_head (hostname : String) (port : PortLike)
    (opts : RedisConnectionOptions) (env : Nat → TickEnv) (fuel k : Nat)
    (st : ConnState) (h : 1 ≤ fuel) :
    (reconnectLoop hostname port opts env fuel k st).1.head?
      = some (Event.waitMillis reconnectIntervalMillis) := by
  obtain ⟨f, rfl⟩ : ∃ f, fuel = f + 1 := ⟨fuel - 1, by omega⟩
  simp only [reconnectLoop]
  rcases hx : (doTick hostname port opts (env k) st).2.2 with _ | b
  · simp [hx]
  · cases b <;> simp [hx]

/-! ## Claim theorems: reconnect -/

/-- Claim C2: reconnect first probes the existing connection with a PING;
on success it only re-marks the connection connected, without redialing.
On failure it enters a fixed-interval retry loop with a 1.2 second period
whose every iteration closes the connection and re-runs connect, whose
outcome coincides with the loop contract of the specification — terminate
when a reconnect succeeds, or when retry count exceeds maxRetryCount, in
which case the call fails with the non-recoverable "Could not reconnect"
error — and which always settles given fuel beyond the ceiling. -/
theorem reconnect_loop_contract (hostname : String) (port : PortLike)
    (opts : RedisConnectionOptions) (env : ReconnectEnv) (st : ConnState)
    (p : JsNum) (c : Int) (fuel : Nat)
    (hp : parsePortLike port = .ok p) (hsafe : isSafeInteger p = true)
    (hmax : st.maxRetryCount = c) (hstable : maxStable opts c)
    (hfuel : (c - st.retryCount + 2).toNat + 1 ≤ fuel) :
    reconnectIntervalMillis = 1200 ∧
      (env.initialPingOk = true →
        reconnect hostname port opts env fuel st
          = ([Event.pingExchange], { st with _isConnected := true }, .ok)) ∧
      (env.initialPingOk = false →
        (reconnectLoop hostname port opts env.ticks fuel 0
              { st with _isConnected := false }).2.2
            = specRetryLoop opts env.ticks c fuel 0 st.retryCount ∧
          (reconnectLoop hostname port opts env.ticks fuel 0
              { st with _isConnected := false }).2.2 ≠ .fuelOut ∧
          ((reconnectLoop hostname port opts env.ticks fuel 0
                { st with _isConnected := false }).2.2 = .rejected →
            (reconnect hostname port opts env fuel st).2.2
              = .err "Could not reconnect") ∧
          ((reconnectLoop hostname port opts env.ticks fuel 0
                { st with _isConnected := false }).2.2 = .resolved →
            (reconnect hostname port opts env fuel st).2.2 = .ok ∧
              (reconnect hostname port opts env fuel st).2.1._isConnected = true) ∧
          (reconnectLoop hostname port opts env.ticks fuel 0
                { st with _isConnected := false }).1.count
              (dialEvent hostname opts p.toIntD)
            = (reconnectLoop hostname port opts env.ticks fuel 0
                  { st with _isConnected := false }).1.count
                (Event.waitMillis reconnectIntervalMillis) ∧
          (reconnectLoop hostname port opts env.ticks fuel 0
                { st with _isConnected := false }).1.count
              (Event.waitMillis reconnectIntervalMillis)
            ≤ (reconnectLoop hostname port opts env.ticks fuel 0
                  { st with _isConnected := false }).1.count Event.closeSocket ∧
          (reconnectLoop hostname port opts env.ticks fuel 0
                { st with _isConnected := false }).1.head?
            = some (Event.waitMillis reconnectIntervalMillis)) := by
  refine ⟨rfl, ?_, ?_⟩
  · intro hping
    simp [reconnect, hping]
  · intro hping
    have hout := reconnectLoop_outcome hostname port env.ticks hp hsafe hstable fuel 0
        { st with _isConnected := false } hmax
    refine ⟨hout, ?_, ?_, ?_,
      (reconnectLoop_counts hostname port opts env.ticks hp hsafe fuel 0 _).1,
      (reconnectLoop_counts hostname port opts env.ticks hp hsafe fuel 0 _).2,
      reconnectLoop_head hostname port opts env.ticks fuel 0 _ (by omega)⟩
    · rw [hout]
      exact specRetryLoop_settles opts env.ticks c fuel 0 st.retryCount (by omega)
    · intro hrej
      simp only [reconnect, hping, Bool.false_eq_true, if_false]
      rcases hL : reconnectLoop hostname port opts env.ticks fuel 0
          { st with _isConnected := false } with ⟨evs, st2, o⟩
      rw [hL] at hrej
      simp only at hrej
      subst hrej
      rfl
    · intro hres
      have hstate := reconnectLoop_resolved_state hostname port opts env.ticks fuel 0
          { st with _isConnected := false } hres
      simp only [reconnect, hping, Bool.false_eq_true, if_false]
      rcases hL : reconnectLoop hostname port opts env.ticks fuel 0
          { st with _isConnected := false } with ⟨evs, st2, o⟩
      rw [hL] at hres hstate
      simp only at hres hstate
      subst hres
      exact ⟨rfl, hstate.2.2⟩

/-- Witness for C2: a PING-failing reconnect whose first loop tick
succeeds, on a fresh connection with no configured maxRetryCount. -/
theorem reconnect_loop_contract_witness :
    (parsePortLike PortLike.undef = .ok (.int 6379) ∧
        isSafeInteger (.int 6379) = true ∧
        ((0 : Int) - 0 + 2).toNat + 1 ≤ 3) ∧
      (reconnect "h" PortLike.undef {}
          ⟨false, fun _ => ⟨⟨true, true, true⟩, true⟩⟩ 3
          { _isConnected := true, socketOpen := true }).2.2 = ReconnectResult.ok := by
  have h := reconnect_loop_contract "h" PortLike.undef {}
      ⟨false, fun _ => ⟨⟨true, true, true⟩, true⟩⟩
      { _isConnected := true, socketOpen := true } (.int 6379) 0 3 rfl (by decide) rfl
      (fun m hm => by cases hm) (by decide)
  have h2 := h.2.2 rfl
  refine ⟨⟨rfl, by decide, by decide⟩, ?_⟩
  exact (h2.2.2.2.1 (by rw [h2.1]; decide)).1

/-- Claim C3 counterexample: a reconnect that succeeds through the retry
loop does reset the retryCount field: starting from retryCount 5 with
maxRetryCount 10, the loop body succeeds at the first tick, the run
resolves, the trace contains the resetRetryCount assignment of redis.ts
2264, and the final retryCount is 1 — not the accumulated 5.  This refutes
the "retryCount is never reset on a successful reconnect" part of C3. -/
theorem reconnect_resets_retryCount_cex :
    (reconnect "h" PortLike.undef { maxRetryCount := some 10 }
        ⟨false, fun _ => ⟨⟨true, true, true⟩, true⟩⟩ 3
        { _isConnected := true, socketOpen := true, maxRetryCount := 10,
          retryCount := 5 }).2.2 = .ok ∧
      Event.resetRetryCount ∈ (reconnect "h" PortLike.undef { maxRetryCount := some 10 }
        ⟨false, fun _ => ⟨⟨true, true, true⟩, true⟩⟩ 3
        { _isConnected := true, socketOpen := true, maxRetryCount := 10,
          retryCount := 5 }).1 ∧
      (reconnect "h" PortLike.undef { maxRetryCount := some 10 }
        ⟨false, fun _ => ⟨⟨true, true, true⟩, true⟩⟩ 3
        { _isConnected := true, socketOpen := true, maxRetryCount := 10,
          retryCount := 5 }).2.1.retryCount = 1 := by
  decide

/-- Claim C3 (amended): the initial PING probe bypasses the retry ceiling
entirely — for any retryCount and maxRetryCount a successful probe
re-marks the client connected and leaves retryCount untouched; in the
retry loop the ceiling is consulted at the start of each tick against a
count incremented only at the end of each body, so from a fresh state
(retryCount 0, maxRetryCount nonnegative) the first tick never rejects,
and a connect attempt is made on every tick, the rejecting one included;
and a reconnect that succeeds through the loop resets retryCount — the
success path assigns 0 and the finally clause increments it, leaving 1
regardless of the failures accumulated before. -/
theorem reconnect_retry_accounting (hostname : String) (port : PortLike)
    (opts : RedisConnectionOptions) (env : ReconnectEnv) (st : ConnState)
    (p : JsNum) (fuel : Nat)
    (hp : parsePortLike port = .ok p) (hsafe : isSafeInteger p = true) :
    (env.initialPingOk = true →
      reconnect hostname port opts env fuel st
        = ([Event.pingExchange], { st with _isConnected := true }, .ok)) ∧
      (env.initialPingOk = false → 1 ≤ fuel →
        dialEvent hostname opts p.toIntD ∈ (reconnect hostname port opts env fuel st).1 ∧
          (st.retryCount = 0 → 0 ≤ st.maxRetryCount →
            (doTick hostname port opts (env.ticks 0)
                { st with _isConnected := false }).2.2 ≠ some false)) ∧
      ∀ (fuel2 k : Nat) (st2 : ConnState),
        (reconnectLoop hostname port opts env.ticks fuel2 k st2).2.2 = .resolved →
        (reconnectLoop hostname port opts env.ticks fuel2 k st2).2.1.retryCount = 1 ∧
          Event.resetRetryCount ∈ (reconnectLoop hostname port opts env.ticks fuel2 k st2).1 := by
  refine ⟨?_, ?_, ?_⟩
  · intro hping
    simp [reconnect, hping]
  · intro hping hfuel
    constructor
    · have hmemT : dialEvent hostname opts p.toIntD ∈
          (doTick hostname port opts (env.ticks 0) { st with _isConnected := false }).1 := by
        have hcnt := (doTick_counts hostname port opts (env.ticks 0)
            { st with _isConnected := false } hp hsafe).1
        exact List.count_pos_iff.mp (by omega)
      have hmemL : dialEvent hostname opts p.toIntD ∈
          (reconnectLoop hostname port opts env.ticks fuel 0
              { st with _isConnected := false }).1 := by
        obtain ⟨f, rfl⟩ : ∃ f, fuel = f + 1 := ⟨fuel - 1, by omega⟩
        simp only [reconnectLoop]
        rcases hx : (doTick hostname port opts (env.ticks 0)
            { st with _isConnected := false }).2.2 with _ | b
        · simp [hx, hmemT]
        · cases b <;> simp [hx, hmemT]
      simp only [reconnect, hping, Bool.false_eq_true, if_false]
      rcases hL : reconnectLoop hostname port opts env.ticks fuel 0
          { st with _isConnected := false } with ⟨evs, st2, o⟩
      rw [hL] at hmemL
      cases o <;> simp only at hmemL ⊢ <;> simp [hmemL]
    · intro h0 hmaxpos hcontra
      have hfired := doTick_rejected_fired hostname port opts (env.ticks 0)
          { st with _isConnected := false } hcontra
      have h1 : ({ st with _isConnected := false } : ConnState).maxRetryCount
          = st.maxRetryCount := rfl
      have h2 : ({ st with _isConnected := false } : ConnState).retryCount
          = st.retryCount := rfl
      rw [h1, h2] at hfired
      omega
  · intro fuel2 k st2 hres
    obtain ⟨h1, h2, _⟩ := reconnectLoop_resolved_state hostname port opts env.ticks
        fuel2 k st2 hres
    exact ⟨h1, h2⟩

/-- Witness for the amended C3 on a failing probe followed by a first-tick
success, from a fresh state. -/
theorem reconnect_retry_accounting_witness :
    (parsePortLike PortLike.undef = .ok (.int 6379) ∧
        isSafeInteger (.int 6379) = true) ∧
      (((⟨false, fun _ => ⟨⟨true, true, true⟩, true⟩⟩ : ReconnectEnv).initialPingOk = true →
        reconnect "h" PortLike.undef {} ⟨false, fun _ => ⟨⟨true, true, true⟩, true⟩⟩ 2
            { _isConnected := true, socketOpen := true }
          = ([Event.pingExchange],
              { ({ _isConnected := true, socketOpen := true } : ConnState) with
                  _isConnected := true }, .ok)) ∧
        ((⟨false, fun _ => ⟨⟨true, true, true⟩, true⟩⟩ : ReconnectEnv).initialPingOk = false →
          1 ≤ 2 →
          dialEvent "h" {} (JsNum.int 6379).toIntD ∈
              (reconnect "h" PortLike.undef {}
                  ⟨false, fun _ => ⟨⟨true, true, true⟩, true⟩⟩ 2
                  { _isConnected := true, socketOpen := true }).1 ∧
            (({ _isConnected := true, socketOpen := true } : ConnState).retryCount = 0 →
              0 ≤ ({ _isConnected := true, socketOpen := true } : ConnState).maxRetryCount →
              (doTick "h" PortLike.undef {}
                  ((fun _ => ⟨⟨true, true, true⟩, true⟩ : Nat → TickEnv) 0)
                  { ({ _isConnected := true, socketOpen := true } : ConnState) with
                      _isConnected := false }).2.2 ≠ some false)) ∧
        ∀ (fuel2 k : Nat) (st2 : ConnState),
          (reconnectLoop "h" PortLike.undef {}
              (fun _ => ⟨⟨true, true, true⟩, true⟩) fuel2 k st2).2.2 = .resolved →
          (reconnectLoop "h" PortLike.undef {}
              (fun _ => ⟨⟨true, true, true⟩, true⟩) fuel2 k st2).2.1.retryCount = 1 ∧
            Event.resetRetryCount ∈ (reconnectLoop "h" PortLike.undef {}
                (fun _ => ⟨⟨true, true, true⟩, true⟩) fuel2 k st2).1) :=
  ⟨⟨rfl, by decide⟩,
    reconnect_retry_accounting "h" PortLike.undef {}
      ⟨false, fun _ => ⟨⟨true, true, true⟩, true⟩⟩
      { _isConnected := true, socketOpen := true } (.int 6379) 2 rfl (by decide)⟩

end DenoRedis
